import Mathlib

/-!
Shallow embedding of the sampling-and-reconciliation engine of the
`sync-dashboard` repository: the long-running sync sampler
(`src/sync-dashboard/scripts/long-running-sync-stats.ts`) and the stats
aggregation server (`src/sync-dashboard/server.js`).

Numbers that the JavaScript source handles as IEEE doubles are embedded as
exact rationals (ℚ); arbitrary-precision balances (`BigInt`) are embedded as
ℕ. Where `Math.ceil(x * 0.1)` / `Math.floor(x * 0.1)` act on the small
integer counts reachable in this program, the exact ℕ ceiling/floor of x/10
coincides with the double computation, and is used.
-/

namespace SyncStats

/-! ### Constants of `long-running-sync-stats.ts` (lines 35-50) -/

def TEST_ADDRESSES : List String :=
  [ "0xC02aaA39b223FE8D0A0e5C4F27eAD9083C756Cc2"
  , "0xA0b86991c6218b36c1d19D4a2e9Eb0cE3606eB48"
  , "0xdAC17F958D2ee523a2206206994597C13D831ec7" ]

def CHAINLINK_ETH_USD : String := "0x5f4eC3Df9cbd43714FE2740f5E3616155c5b8419"

def LATEST_ROUND_DATA_SELECTOR : String := "0xfeaf968c"

def USDC_ADDRESS : String := "0xA0b86991c6218b36c1d19D4a2e9Eb0cE3606eB48"

def TRANSFER_TOPIC : String :=
  "0xddf252ad1be2c89b69c2b068fc378daa952ba7f163c4a11628f55a4df523b3ef"

def VITALIK : String := "0xd8dA6BF26964aF9D7eEd9e03E53415D37aA96045"

/-- `String(BigInt(v))`: the canonical decimal string of a balance. -/
def canonicalDecimal (n : Nat) : String := toString n

/-! ### Records appended to the NDJSON streams -/

/-- One line of the `-errors.ndjson` stream (the fields the comparison loop
writes, minus wall-clock timestamps, which the embedding leaves out). -/
structure ErrorRecord where
  block : Nat
  kind : String
  address : String
  side : String
  message : String
deriving Repr, DecidableEq

/-- One line of the `-mismatches.ndjson` stream (interface `MismatchDump`,
lines 52-61; timestamps left out). -/
structure MismatchRecord where
  mismatchId : String
  block : Nat
  kind : String
  address : String
  directValue : String
  referenceValue : String
deriving Repr, DecidableEq

/-- The captured context a call to `scheduleRetry` (lines 151-159) would
hold: everything needed to re-issue the reference query later. -/
structure RetryTask where
  mismatchId : String
  block : Nat
  kind : String
  address : String
  directValue : String
  originalRefValue : String
deriving Repr, DecidableEq

/-- One line of the `-recoveries.ndjson` stream (interface `RecoveryDump`,
lines 63-74; timestamps left out). -/
structure RecoveryDump where
  mismatchId : String
  block : Nat
  kind : String
  address : String
  recovered : Bool
  directValue : String
  originalRefValue : String
  retryRefValue : Option String
deriving Repr, DecidableEq

/-! ### The per-address balance comparison (lines 255-311)

For one address of `TEST_ADDRESSES`, the loop body fetches the balance from
the Direct client (a throw lands in `catch`, bumping `directErrors` and
appending an error record) and from the reference (an `error` field bumps
`refErrors` and appends an error record), then appends a mismatch record
iff both balances are non-null and their decimal strings differ.

Each side's outcome is embedded as `Except String Nat`: `.ok n` is a call
that returned a balance that `BigInt` parsed to `n`, `.error e` a call that
threw / returned an error `e`. -/

/-- Everything one balance comparison appends or mutates. -/
structure BalanceStepOut where
  errors : List ErrorRecord
  mismatches : List MismatchRecord
  /-- The `scheduleRetry` invocations this step performs. The source appends
  the mismatch record and logs it (lines 296-310) without ever calling
  `scheduleRetry`, so this list is always empty. -/
  scheduledRetries : List RetryTask
  directErrorInc : Nat
  refErrorInc : Nat
  readsMatchedOk : Bool
deriving Repr, DecidableEq

/-- The body of the `for (const address of TEST_ADDRESSES)` loop
(lines 255-311), given the two call outcomes and the current value of the
global `mismatchCounter`. Returns the appended records and the new counter. -/
def balanceStep (block : Nat) (address : String)
    (directRes refRes : Except String Nat) (counter : Nat) :
    BalanceStepOut × Nat :=
  let directBalance : Option String :=
    match directRes with
    | .ok n => some (canonicalDecimal n)
    | .error _ => none
  let dErrs : List ErrorRecord :=
    match directRes with
    | .ok _ => []
    | .error e => [{ block := block, kind := "balance", address := address,
                     side := "direct", message := e }]
  let dInc : Nat := match directRes with | .ok _ => 0 | .error _ => 1
  let refBalance : Option String :=
    match refRes with
    | .ok n => some (canonicalDecimal n)
    | .error _ => none
  let rErrs : List ErrorRecord :=
    match refRes with
    | .ok _ => []
    | .error e => [{ block := block, kind := "balance", address := address,
                     side := "reference", message := e }]
  let rInc : Nat := match refRes with | .ok _ => 0 | .error _ => 1
  match directBalance, refBalance with
  | some d, some r =>
    if d ≠ r then
      let counter' := counter + 1
      ({ errors := dErrs ++ rErrs
       , mismatches := [{ mismatchId := "M" ++ toString counter', block := block,
                          kind := "balance", address := address,
                          directValue := d, referenceValue := r }]
       , scheduledRetries := []
       , directErrorInc := dInc, refErrorInc := rInc, readsMatchedOk := false },
       counter')
    else
      ({ errors := dErrs ++ rErrs, mismatches := [], scheduledRetries := []
       , directErrorInc := dInc, refErrorInc := rInc, readsMatchedOk := true },
       counter)
  | _, _ =>
      ({ errors := dErrs ++ rErrs, mismatches := [], scheduledRetries := []
       , directErrorInc := dInc, refErrorInc := rInc, readsMatchedOk := true },
       counter)

/-! ### The delayed re-verification (`scheduleRetry`, lines 151-192)

The scheduled task re-issues only the reference-side query (`retryFn`); the
original Direct value travels with the task as data and is never
re-queried. The outcome of `retryFn` is embedded as
`Except Unit (Option String)`: `.ok v` is a completed call returning
`v : string | null`, `.error ()` a throw. -/

/-- What the body of the `sleep(5000).then(...)` callback computes and
appends: always exactly one `RecoveryDump`. -/
def runScheduledRetry (task : RetryTask)
    (retryOutcome : Except Unit (Option String)) : RecoveryDump :=
  let retryRefValue : Option String :=
    match retryOutcome with
    | .ok v => v
    | .error _ => none
  let recovered : Bool :=
    match retryOutcome with
    | .ok v => v == some task.directValue
    | .error _ => false
  { mismatchId := task.mismatchId, block := task.block, kind := task.kind,
    address := task.address, recovered := recovered,
    directValue := task.directValue, originalRefValue := task.originalRefValue,
    retryRefValue := retryRefValue }

/-! ### The batch request (lines 438-459) and its comparison (lines 512-544) -/

/-- The shape of one request of the 20-request batch. -/
inductive BatchReq
  | blockNumber
  | getBalance (address : String)
  | contractCall
deriving Repr, DecidableEq

/-- `allAddresses` (line 448). -/
def allAddresses : List String :=
  TEST_ADDRESSES ++ [VITALIK, "0x742d35Cc6634C0532925a3b844Bc9e7595f6E555"]

/-- The batch built each iteration (lines 440-459): 5× `eth_blockNumber`,
10× `eth_getBalance` cycling through `allAddresses`, 5× `eth_call`. -/
def batchRequests : List BatchReq :=
  List.replicate 5 .blockNumber
    ++ (List.range 10).map
        (fun i => .getBalance (allAddresses.getD (i % allAddresses.length) ""))
    ++ List.replicate 5 .contractCall

/-- `batchSize` as emitted with the sample (line 589): the number of
requests in the batch. -/
def batchSize : Nat := batchRequests.length

/-- One entry of a batch response: correlation id, `result` (JS `undefined`
embedded as `none`) and `error`. -/
structure BatchEntry where
  id : Nat
  result : Option String
  errorField : Option String
deriving Repr, DecidableEq

/-- The id→result maps of lines 520-525: entries with an `error` are
filtered out, then a JS `Map` keeps the last entry per id; `get` of an
absent id and a stored `undefined` result both come back as `none`. -/
def byId (rs : List BatchEntry) (id : Nat) : Option String :=
  match (rs.filter (fun r => r.errorField.isNone)).reverse.find?
      (fun r => r.id == id) with
  | none => none
  | some r => r.result

/-- `compared` (lines 528-537): ids `1..n` carrying a non-error value on
both sides. -/
def comparedCount (dRs rRs : List BatchEntry) (n : Nat) : Nat :=
  ((List.range n).map (· + 1)).countP
    (fun id => (byId dRs id).isSome && (byId rRs id).isSome)

/-- `batchMismatchCount` (lines 528-537): compared ids whose values differ. -/
def batchMismatchCount (dRs rRs : List BatchEntry) (n : Nat) : Nat :=
  ((List.range n).map (· + 1)).countP
    (fun id =>
      match byId dRs id, byId rRs id with
      | some d, some r => d != r
      | _, _ => false)

/-- `Math.ceil(compared * 0.1)` (line 539). Exact ℕ ceiling of `c / 10`;
it agrees with the double computation for every count `c` reachable here
(`c ≤ 20`). -/
def ceilTenPercent (c : Nat) : Nat := (c + 9) / 10

/-- `batchMatched` (lines 512-544): with both batch calls error-free and
both result lists non-empty, matched iff some ids were compared and the
mismatching ids stay within the inclusive 10% threshold; a batch-level
error on either side skips the check (`true`); otherwise `false`. -/
def batchMatched (directBatchError refBatchError : Bool)
    (dRs rRs : List BatchEntry) : Bool :=
  if !directBatchError && !refBatchError
      && decide (0 < dRs.length) && decide (0 < rRs.length) then
    let compared := comparedCount dRs rRs batchRequests.length
    let mismatches := batchMismatchCount dRs rRs batchRequests.length
    decide (0 < compared) && decide (mismatches ≤ ceilTenPercent compared)
  else if directBatchError || refBatchError then
    true
  else
    false

/-! ### JS rounding helpers (exact, over ℚ) -/

/-- `Math.round(x)`: round half toward positive infinity. -/
def jsRound (x : ℚ) : ℤ := ⌊x + 1 / 2⌋

/-- `Math.round(x * 100) / 100`: round to two decimal places. -/
def round2 (x : ℚ) : ℚ := (jsRound (x * 100) : ℚ) / 100

/-! ### The batch speedup estimate (lines 550-554, 595) -/

/-- `avgSingleLatency` (line 552). -/
def avgSingleLatency (directLatencyMs refLatencyMs : ℚ) : ℚ :=
  (directLatencyMs + refLatencyMs) / 2

/-- `estimatedSequentialMs` (line 553): 5× the single-call average. -/
def estimatedSequentialMs (directLatencyMs refLatencyMs : ℚ) : ℚ :=
  avgSingleLatency directLatencyMs refLatencyMs * 5

/-- `batchSpeedup` (line 554). -/
def batchSpeedupRaw (directLatencyMs refLatencyMs directBatchLatencyMs : ℚ) : ℚ :=
  estimatedSequentialMs directLatencyMs refLatencyMs / directBatchLatencyMs

/-- The `batchSpeedup` field of the emitted sample (line 595):
`Math.round(batchSpeedup * 100) / 100`. -/
def emittedBatchSpeedup (directLatencyMs refLatencyMs directBatchLatencyMs : ℚ) : ℚ :=
  round2 (batchSpeedupRaw directLatencyMs refLatencyMs directBatchLatencyMs)

/-- Modelled from the spec: the speedup formula the spec states,
`(avg single-call latency of both sides) × batchSize /
measuredPrimaryBatchLatency`, with `batchSize` the number of requests in
the batch. Kept separate from the source's `batchSpeedupRaw` to compare
the two. -/
def specBatchSpeedup (directLatencyMs refLatencyMs directBatchLatencyMs : ℚ) : ℚ :=
  avgSingleLatency directLatencyMs refLatencyMs * (batchSize : ℚ)
    / directBatchLatencyMs

/-! ### The comparable block and the queries built from it
(lines 245-248, 255-264, 314-323, 341-347, 440-459) -/

/-- `compareBlock.toString(16)`: lowercase hex digits. -/
def natToHex (n : Nat) : String := String.mk (Nat.toDigits 16 n)

/-- `compareBlockHex` (lines 247-248): `"0x" + Math.min(directBlock,
refBlock).toString(16)`. -/
def compareBlockHex (directBlock refBlock : Nat) : String :=
  "0x" ++ natToHex (min directBlock refBlock)

/-- The `[address, blockRef]` params of one `eth_getBalance` call. -/
structure BalanceQuery where
  address : String
  blockRef : String
deriving Repr, DecidableEq

/-- The `[{to, data}, blockRef]` params of the `eth_call` test. -/
structure CallQuery where
  toAddr : String
  dataField : String
  blockRef : String
deriving Repr, DecidableEq

/-- The `eth_getLogs` filter (lines 342-347). -/
structure LogsQuery where
  address : String
  topic : String
  fromBlock : String
  toBlock : String
deriving Repr, DecidableEq

/-- A batch request with its concrete params filled in. -/
inductive BatchQuery
  | blockNumber
  | getBalance (address : String) (blockRef : String)
  | contractCall (toAddr : String) (dataField : String) (blockRef : String)
deriving Repr, DecidableEq

/-- Every per-iteration comparison query of `runTest`, as built from the two
observed block heights. -/
structure IterationQueries where
  balanceQueries : List BalanceQuery
  callQuery : CallQuery
  logsQuery : LogsQuery
  batchQueries : List BatchQuery
deriving Repr, DecidableEq

/-- The queries one loop iteration issues (balance loop lines 255-264,
`eth_call` lines 314-323, `eth_getLogs` lines 341-347, batch lines
440-459), all built over `compareBlockHex`. -/
def iterationQueries (directBlock refBlock : Nat) : IterationQueries :=
  let hex := compareBlockHex directBlock refBlock
  { balanceQueries := TEST_ADDRESSES.map (fun a => { address := a, blockRef := hex })
  , callQuery := { toAddr := CHAINLINK_ETH_USD,
                   dataField := LATEST_ROUND_DATA_SELECTOR, blockRef := hex }
  , logsQuery := { address := USDC_ADDRESS, topic := TRANSFER_TOPIC,
                   fromBlock := hex, toBlock := hex }
  , batchQueries := batchRequests.map (fun r =>
      match r with
      | .blockNumber => .blockNumber
      | .getBalance a => .getBalance a hex
      | .contractCall => .contractCall CHAINLINK_ETH_USD LATEST_ROUND_DATA_SELECTOR hex) }

/-- The block reference a batch query carries, if any. -/
def BatchQuery.blockRef? : BatchQuery → Option String
  | .blockNumber => none
  | .getBalance _ h => some h
  | .contractCall _ _ h => some h

/-! ## The stats aggregation server (`src/sync-dashboard/server.js`) -/

/-- `percentile(sorted, p)` (server.js lines 28-34): `null` on an empty
list; otherwise linear interpolation at index `(n-1)×p` between the floor
and ceil order statistics (a JS out-of-range index has no ℚ counterpart;
the embedding indexes with default `0`, which the in-range `p ∈ [0,1]`
uses of the source never reach). -/
def percentile (sorted : List ℚ) (p : ℚ) : Option ℚ :=
  if sorted.length = 0 then none
  else
    let idx : ℚ := ((sorted.length - 1 : ℕ) : ℚ) * p
    let lo : ℤ := ⌊idx⌋
    let hi : ℤ := ⌈idx⌉
    if lo = hi then some (sorted.getD lo.toNat 0)
    else some (sorted.getD lo.toNat 0 * (1 - (idx - (lo : ℚ)))
               + sorted.getD hi.toNat 0 * (idx - (lo : ℚ)))

/-- `Math.floor(heapValues.length * 0.1)` (server.js line 91). Exact ℕ
floor of `n / 10`; agrees with the double computation for the sample
counts reachable here. -/
def floorTenPercent (n : Nat) : Nat := n / 10

/-- The memory trend of `computeStats` (server.js lines 88-95): `null`
under 20 heap-bearing samples, else the last-decile mean minus the
first-decile mean, rounded to two decimals. -/
def memoryTrend (heapValues : List ℚ) : Option ℚ :=
  if 20 ≤ heapValues.length then
    let tenPct := floorTenPercent heapValues.length
    let firstAvg := (heapValues.take tenPct).sum / (tenPct : ℚ)
    let lastAvg := (heapValues.drop (heapValues.length - tenPct)).sum / (tenPct : ℚ)
    some (round2 (lastAvg - firstAvg))
  else none

/-- Modelled from the spec: the raw first-decile versus last-decile delta
of the heap-used values, `mean(last 10%) − mean(first 10%)`, in the same
unit (no rounding mentioned). Kept separate from the source's
`memoryTrend` to compare the two. -/
def specTrendDelta (heapValues : List ℚ) : ℚ :=
  let tenPct := floorTenPercent heapValues.length
  (heapValues.drop (heapValues.length - tenPct)).sum / (tenPct : ℚ)
    - (heapValues.take tenPct).sum / (tenPct : ℚ)

/-! ### The mismatch/recovery join (`computeMismatchStats`, server.js
lines 125-141) -/

/-- `new Map(recoveries.map(r => [r.mismatchId, r])).get(id)`: of the
recoveries carrying `id`, the last one (a JS `Map` keeps the last entry
per key). -/
def recoveryLookup (recoveries : List RecoveryDump) (id : String) :
    Option RecoveryDump :=
  recoveries.reverse.find? (fun r => r.mismatchId == id)

/-- The value `computeMismatchStats` returns. -/
structure MismatchStatsOut where
  total : Nat
  recovered : Nat
  persistent : Nat
  pending : Nat
  recentMismatches : List MismatchRecord
  recentRecoveries : List RecoveryDump
deriving Repr, DecidableEq

/-- The body of the `for (const m of mismatches)` loop (server.js lines
129-134), threading the `(recovered, persistent, pending)` counters. -/
def joinStep (recoveries : List RecoveryDump) (acc : Nat × Nat × Nat)
    (m : MismatchRecord) : Nat × Nat × Nat :=
  match recoveryLookup recoveries m.mismatchId with
  | none => (acc.1, acc.2.1, acc.2.2 + 1)
  | some r =>
    if r.recovered then (acc.1 + 1, acc.2.1, acc.2.2)
    else (acc.1, acc.2.1 + 1, acc.2.2)

/-- `computeMismatchStats(mismatches, recoveries)` (server.js lines
125-141): bucket every mismatch by its joined recovery (`slice(-20)` is
`drop (length - 20)`). -/
def computeMismatchStats (mismatches : List MismatchRecord)
    (recoveries : List RecoveryDump) : MismatchStatsOut :=
  let counts : Nat × Nat × Nat :=
    mismatches.foldl (joinStep recoveries) (0, 0, 0)
  { total := mismatches.length
  , recovered := counts.1, persistent := counts.2.1, pending := counts.2.2
  , recentMismatches := mismatches.drop (mismatches.length - 20)
  , recentRecoveries := recoveries.drop (recoveries.length - 20) }

/-! ### The `/api/stats` handler (server.js lines 145-163)

The four NDJSON streams are embedded as already-parsed `Option` lists:
`none` is a file that is missing or unreadable. The handler reads the
sample stream with `fs.readFile` and answers 500 on any error; the other
three go through `safeReadNdjson`, which turns a missing/unreadable file
into `[]`. -/

/-- A parsed sample point, restricted to the fields the handler touches. -/
structure SamplePoint where
  timestamp : Nat
  heapUsedMB : Option ℚ
deriving Repr, DecidableEq

/-- `safeReadNdjson` (server.js lines 21-26): a missing or unreadable
stream is an empty list. -/
def safeReadNdjson {α : Type} (file : Option (List α)) : List α :=
  file.getD []

/-- The JSON body of a successful `/api/stats` response (the `stats`
field, a pure function of `points`, is represented by the heap values it
aggregates over). -/
structure StatsBody where
  points : List SamplePoint
  mismatchStats : MismatchStatsOut
  memTrend : Option ℚ
  recentErrors : List ErrorRecord
deriving Repr, DecidableEq

/-- An HTTP outcome of the handler. -/
inductive ApiResult
  | ok (body : StatsBody)
  | serverError (code : Nat) (msg : String)
deriving Repr, DecidableEq

def ApiResult.isOk : ApiResult → Bool
  | .ok _ => true
  | .serverError _ _ => false

/-- `MAX_POINTS_TO_CLIENT` (server.js line 143). -/
def MAX_POINTS_TO_CLIENT : Nat := 500

/-- The `/api/stats` handler (server.js lines 145-163): a failed read of
the sample stream is a 500; the mismatch, recovery and error streams go
through `safeReadNdjson`. -/
def apiStats (dataFile : Option (List SamplePoint))
    (mismatchFile : Option (List MismatchRecord))
    (recoveryFile : Option (List RecoveryDump))
    (errorFile : Option (List ErrorRecord)) : ApiResult :=
  match dataFile with
  | none => .serverError 500 "Failed to read data"
  | some raw =>
    let allPoints := raw.mergeSort (fun a b => a.timestamp ≤ b.timestamp)
    let points := allPoints.drop (allPoints.length - MAX_POINTS_TO_CLIENT)
    let mismatches := safeReadNdjson mismatchFile
    let recoveries := safeReadNdjson recoveryFile
    let errs := safeReadNdjson errorFile
    .ok { points := points
        , mismatchStats := computeMismatchStats mismatches recoveries
        , memTrend := memoryTrend (allPoints.filterMap (fun p => p.heapUsedMB))
        , recentErrors := errs.drop (errs.length - 20) }

/-! ### Derived classifiers for the mismatch/recovery join -/

/-- A mismatch whose joined recovery has `recovered = true`. -/
def recoveredByJoin (recoveries : List RecoveryDump) (m : MismatchRecord) : Bool :=
  match recoveryLookup recoveries m.mismatchId with
  | some r => r.recovered
  | none => false

/-- A mismatch whose joined recovery has `recovered = false`. -/
def persistentByJoin (recoveries : List RecoveryDump) (m : MismatchRecord) : Bool :=
  match recoveryLookup recoveries m.mismatchId with
  | some r => !r.recovered
  | none => false

/-- A mismatch with no joined recovery. -/
def pendingByJoin (recoveries : List RecoveryDump) (m : MismatchRecord) : Bool :=
  (recoveryLookup recoveries m.mismatchId).isNone

/-! ### Concrete test vectors -/

/-- A batch response entry carrying a value and no error. -/
def exEntry (id : Nat) (v : String) : BatchEntry :=
  { id := id, result := some v, errorField := none }

/-- Ten valid primary-side batch entries for ids 1..10. -/
def exDirect10 : List BatchEntry :=
  [ exEntry 1 "v1", exEntry 2 "v2", exEntry 3 "v3", exEntry 4 "v4"
  , exEntry 5 "v5", exEntry 6 "v6", exEntry 7 "v7", exEntry 8 "v8"
  , exEntry 9 "v9", exEntry 10 "v10" ]

/-- Ten valid reference-side entries disagreeing with `exDirect10` at one
id. -/
def exRefOneDiff : List BatchEntry :=
  [ exEntry 1 "x", exEntry 2 "v2", exEntry 3 "v3", exEntry 4 "v4"
  , exEntry 5 "v5", exEntry 6 "v6", exEntry 7 "v7", exEntry 8 "v8"
  , exEntry 9 "v9", exEntry 10 "v10" ]

/-- Ten valid reference-side entries disagreeing with `exDirect10` at two
ids. -/
def exRefTwoDiff : List BatchEntry :=
  [ exEntry 1 "x", exEntry 2 "y", exEntry 3 "v3", exEntry 4 "v4"
  , exEntry 5 "v5", exEntry 6 "v6", exEntry 7 "v7", exEntry 8 "v8"
  , exEntry 9 "v9", exEntry 10 "v10" ]

/-- Twenty heap-used samples whose decile means differ by 1/200 MB. -/
def exHeap : List ℚ :=
  [0, 1/100, 0, 0, 0, 0, 0, 0, 0, 0, 0, 0, 0, 0, 0, 0, 0, 0, 0, 0]

end SyncStats

namespace SyncStats

/-- C1: evaluating the balance-comparison step of `runTest` at a concrete
divergence (direct balance 1, reference balance 2, counter 0): a
`MismatchRecord` with identifier `M1` is appended, yet the step schedules
no re-verification task — `scheduleRetry` is never invoked anywhere in the
sampler, so no `RecoveryRecord` is ever created for the mismatch,
contradicting the claim that every mismatch gets exactly one. -/
theorem mismatch_appended_but_no_retry_scheduled :
    (balanceStep 100 "0xC02aaA39b223FE8D0A0e5C4F27eAD9083C756Cc2"
        (.ok 1) (.ok 2) 0).1.mismatches =
      [{ mismatchId := "M1", block := 100, kind := "balance",
         address := "0xC02aaA39b223FE8D0A0e5C4F27eAD9083C756Cc2",
         directValue := "1", referenceValue := "2" }] ∧
    (balanceStep 100 "0xC02aaA39b223FE8D0A0e5C4F27eAD9083C756Cc2"
        (.ok 1) (.ok 2) 0).1.scheduledRetries = [] ∧
    (balanceStep 100 "0xC02aaA39b223FE8D0A0e5C4F27eAD9083C756Cc2"
        (.ok 1) (.ok 2) 0).2 = 1 := by
  decide

/-- C2: in the balance comparison, a `MismatchRecord` is appended iff both
sides returned a value and the canonical decimal strings differ; a side
that errors contributes an `ErrorRecord` and bumps that side's error
count, and no mismatch is appended when either side errored. -/
theorem balance_mismatch_iff_values_differ
    (block : Nat) (address : String) (directRes refRes : Except String Nat)
    (counter : Nat) :
    ((balanceStep block address directRes refRes counter).1.mismatches ≠ [] ↔
      ∃ a b, directRes = .ok a ∧ refRes = .ok b ∧
        canonicalDecimal a ≠ canonicalDecimal b) ∧
    ((balanceStep block address directRes refRes counter).1.directErrorInc =
      match directRes with | .error _ => 1 | .ok _ => 0) ∧
    ((balanceStep block address directRes refRes counter).1.refErrorInc =
      match refRes with | .error _ => 1 | .ok _ => 0) ∧
    (∀ e, directRes = .error e →
      (balanceStep block address directRes refRes counter).1.mismatches = [] ∧
      ({ block := block, kind := "balance", address := address,
         side := "direct", message := e } : ErrorRecord) ∈
        (balanceStep block address directRes refRes counter).1.errors) ∧
    (∀ e, refRes = .error e →
      (balanceStep block address directRes refRes counter).1.mismatches = [] ∧
      ({ block := block, kind := "balance", address := address,
         side := "reference", message := e } : ErrorRecord) ∈
        (balanceStep block address directRes refRes counter).1.errors) := by
  cases directRes with
  | error e =>
    cases refRes with
    | error f => simp [balanceStep]
    | ok b => simp [balanceStep]
  | ok a =>
    cases refRes with
    | error f => simp [balanceStep]
    | ok b =>
      by_cases h : canonicalDecimal a = canonicalDecimal b <;>
        simp [balanceStep, h]

/-- C4: a scheduled re-verification compares the freshly queried reference
value to the original primary (Direct) value — `recovered` is true exactly
when they are equal; when the re-query throws, the recovery record is
still produced, with `recovered = false` and `retryRefValue = null`; the
record always carries the owning mismatch's identifier. -/
theorem retry_recovered_iff_fresh_ref_equals_primary
    (task : RetryTask) (retryOutcome : Except Unit (Option String)) :
    ((runScheduledRetry task retryOutcome).recovered = true ↔
      retryOutcome = .ok (some task.directValue)) ∧
    (∀ u, retryOutcome = .error u →
      (runScheduledRetry task retryOutcome).recovered = false ∧
      (runScheduledRetry task retryOutcome).retryRefValue = none) ∧
    ((runScheduledRetry task retryOutcome).retryRefValue =
      match retryOutcome with | .ok v => v | .error _ => none) ∧
    (runScheduledRetry task retryOutcome).mismatchId = task.mismatchId := by
  cases retryOutcome with
  | ok v => simp [runScheduledRetry]
  | error u => simp [runScheduledRetry]

/-- C7: every per-iteration comparison query — the three balance reads,
the `eth_call`, the `eth_getLogs` range and every block-pinned batch
request — is built over `compareBlockHex`, the hex encoding of the
minimum of the two observed block heights. -/
theorem comparisons_use_minimum_block (directBlock refBlock : Nat) :
    ((iterationQueries directBlock refBlock).balanceQueries.all
      (fun q => q.blockRef == compareBlockHex directBlock refBlock)) = true ∧
    (iterationQueries directBlock refBlock).balanceQueries.length =
      TEST_ADDRESSES.length ∧
    (iterationQueries directBlock refBlock).callQuery.blockRef =
      compareBlockHex directBlock refBlock ∧
    (iterationQueries directBlock refBlock).logsQuery.fromBlock =
      compareBlockHex directBlock refBlock ∧
    (iterationQueries directBlock refBlock).logsQuery.toBlock =
      compareBlockHex directBlock refBlock ∧
    ((iterationQueries directBlock refBlock).batchQueries.all
      (fun q => (q.blockRef?.getD (compareBlockHex directBlock refBlock)) ==
        compareBlockHex directBlock refBlock)) = true ∧
    compareBlockHex directBlock refBlock =
      "0x" ++ natToHex (min directBlock refBlock) := by
  refine ⟨?_, by simp [iterationQueries], rfl, rfl, rfl, ?_, rfl⟩
  · rw [List.all_eq_true]
    intro q hq
    simp only [iterationQueries, List.mem_map] at hq
    obtain ⟨a, _, rfl⟩ := hq
    simp
  · rw [List.all_eq_true]
    intro q hq
    simp only [iterationQueries, List.mem_map] at hq
    obtain ⟨r, _, rfl⟩ := hq
    cases r <;> simp [BatchQuery.blockRef?]

/-- C8 counterexample: at single-call latencies 2 ms and 4 ms and a
primary batch latency of 3 ms, the emitted `batchSpeedup` is 5 — the
5× sequential estimate of the source — while the claimed formula
(average single latency × batch size 20 / batch latency) gives 20. -/
theorem batch_speedup_ignores_batch_size :
    emittedBatchSpeedup 2 4 3 = 5 ∧
    specBatchSpeedup 2 4 3 = 20 ∧
    emittedBatchSpeedup 2 4 3 ≠ specBatchSpeedup 2 4 3 := by
  have h1 : emittedBatchSpeedup 2 4 3 = 5 := by
    norm_num [emittedBatchSpeedup, batchSpeedupRaw, estimatedSequentialMs,
      avgSingleLatency, round2, jsRound]
  have h2 : specBatchSpeedup 2 4 3 = 20 := by
    norm_num [specBatchSpeedup, avgSingleLatency, batchSize, batchRequests,
      allAddresses, TEST_ADDRESSES, VITALIK]
  refine ⟨h1, h2, ?_⟩
  rw [h1, h2]
  norm_num

/-- C8 (amended): the emitted `batchSpeedup` equals the average of the two
sides' single-call latencies multiplied by the fixed factor 5 (not the
batch size, which is 20), divided by the measured primary batch latency,
rounded to two decimals. -/
theorem batch_speedup_formula (d r b : ℚ) :
    emittedBatchSpeedup d r b = round2 ((d + r) / 2 * 5 / b) ∧
    batchSize = 20 := by
  refine ⟨rfl, ?_⟩
  simp [batchSize, batchRequests]

/-- C9 counterexample: with the sample stream file missing (and every
other stream present and empty), `/api/stats` answers 500 "Failed to read
data" — not a successful response with empty data. -/
theorem missing_sample_stream_yields_500 :
    apiStats none (some []) (some []) (some []) =
      .serverError 500 "Failed to read data" ∧
    (apiStats none (some []) (some []) (some [])).isOk = false := by
  exact ⟨rfl, rfl⟩

/-- C9 (amended): the mismatch, recovery and error streams are tolerated —
a missing stream is read as an empty list and the endpoint still answers
successfully — but a missing sample stream file always produces the 500
error response. -/
theorem stats_stream_tolerance (pts : List SamplePoint)
    (m : Option (List MismatchRecord)) (r : Option (List RecoveryDump))
    (e : Option (List ErrorRecord)) :
    apiStats (some pts) none none none =
      apiStats (some pts) (some []) (some []) (some []) ∧
    (apiStats (some pts) none none none).isOk = true ∧
    apiStats none m r e = .serverError 500 "Failed to read data" := by
  exact ⟨rfl, rfl, rfl⟩

/-- C5: the percentile function interpolates linearly at index `(n−1)×p`:
on `[1,2,3,4,5]` it gives 3 at p = 0.5, 4.6 at p = 0.9 and 4.96 at
p = 0.99, and on the empty list it gives `null` at every p. -/
theorem percentile_linear_interpolation :
    percentile [1, 2, 3, 4, 5] (1 / 2) = some 3 ∧
    percentile [1, 2, 3, 4, 5] (9 / 10) = some (23 / 5) ∧
    percentile [1, 2, 3, 4, 5] (99 / 100) = some (124 / 25) ∧
    ∀ p : ℚ, percentile [] p = none := by
  refine ⟨?_, ?_, ?_, fun p => by simp [percentile]⟩
  · norm_num [percentile, List.getD, show ((2 : ℤ).toNat = 2) from rfl]
  · have hc : ⌈(18 : ℚ) / 5⌉ = 4 := by
      rw [Int.ceil_eq_iff]
      norm_num
    norm_num [percentile, hc, List.getD, show ((3 : ℤ).toNat = 3) from rfl,
      show ((4 : ℤ).toNat = 4) from rfl]
  · have hc : ⌈(99 : ℚ) / 25⌉ = 4 := by
      rw [Int.ceil_eq_iff]
      norm_num
    norm_num [percentile, hc, List.getD, show ((3 : ℤ).toNat = 3) from rfl,
      show ((4 : ℤ).toNat = 4) from rfl]

/-- C10 counterexample: with 20 heap samples whose first-decile mean is
1/200 MB above the last-decile mean, the emitted trend is 0 (the delta
−1/200 rounded to two decimals), not the raw decile-mean delta −1/200
that the claim states. -/
theorem memory_trend_is_rounded :
    memoryTrend exHeap = some 0 ∧
    specTrendDelta exHeap = -(1 / 200) ∧
    memoryTrend exHeap ≠ some (specTrendDelta exHeap) := by
  have h1 : memoryTrend exHeap = some 0 := by
    norm_num [memoryTrend, exHeap, floorTenPercent, round2, jsRound]
  have h2 : specTrendDelta exHeap = -(1 / 200) := by
    norm_num [specTrendDelta, exHeap, floorTenPercent]
  refine ⟨h1, h2, ?_⟩
  rw [h1, h2]
  norm_num

/-- C10 (amended): the memory trend is `null` when fewer than 20 samples
carry a heap-used value; with at least 20 it is the mean of the last
`floor(n×0.1)` heap values minus the mean of the first `floor(n×0.1)`
heap values, rounded to two decimal places. -/
theorem memory_trend_decile_delta (heapValues : List ℚ) :
    memoryTrend heapValues =
      if 20 ≤ heapValues.length then some (round2 (specTrendDelta heapValues))
      else none := by
  by_cases h : 20 ≤ heapValues.length <;>
    simp [memoryTrend, specTrendDelta, h]

/-- The classification loop of `computeMismatchStats`, run from an
arbitrary accumulator: each counter grows by the number of mismatches the
join classifies into its bucket. -/
theorem joinStep_foldl (recoveries : List RecoveryDump)
    (ms : List MismatchRecord) :
    ∀ a b c : Nat,
      ms.foldl (joinStep recoveries) (a, b, c) =
        (a + ms.countP (recoveredByJoin recoveries),
         b + ms.countP (persistentByJoin recoveries),
         c + ms.countP (pendingByJoin recoveries)) := by
  induction ms with
  | nil => intro a b c; simp
  | cons m t ih =>
    intro a b c
    simp only [List.foldl_cons, List.countP_cons, joinStep]
    cases h : recoveryLookup recoveries m.mismatchId with
    | none =>
      rw [ih]
      simp [recoveredByJoin, persistentByJoin, pendingByJoin, h, Prod.ext_iff]
      omega
    | some r =>
      cases hr : r.recovered with
      | true =>
        rw [ih]
        simp [recoveredByJoin, persistentByJoin, pendingByJoin, h, hr,
          Prod.ext_iff]
        omega
      | false =>
        rw [ih]
        simp [recoveredByJoin, persistentByJoin, pendingByJoin, h, hr,
          Prod.ext_iff]
        omega

/-- Every mismatch lands in exactly one of the three join buckets. -/
theorem join_counts_sum (recoveries : List RecoveryDump)
    (ms : List MismatchRecord) :
    ms.countP (recoveredByJoin recoveries) +
      ms.countP (persistentByJoin recoveries) +
      ms.countP (pendingByJoin recoveries) = ms.length := by
  have hcount : ∀ m : MismatchRecord,
      (if recoveredByJoin recoveries m then 1 else 0) +
      (if persistentByJoin recoveries m then 1 else 0) +
      (if pendingByJoin recoveries m then 1 else 0) = 1 := by
    intro m
    unfold recoveredByJoin persistentByJoin pendingByJoin
    cases h : recoveryLookup recoveries m.mismatchId with
    | none => simp
    | some r => cases hr : r.recovered <;> simp [hr]
  induction ms with
  | nil => simp
  | cons m t ih =>
    simp only [List.countP_cons, List.length_cons]
    have := hcount m
    omega

/-- C6: the mismatch summary joins mismatches to recoveries by
`mismatchId`: `recovered` counts the mismatches whose joined recovery has
`recovered = true`, `persistent` those whose joined recovery has
`recovered = false`, `pending` those with no joined recovery, and the
reported total equals the number of mismatch records and equals
recovered + persistent + pending. -/
theorem mismatch_summary_join (ms : List MismatchRecord)
    (recoveries : List RecoveryDump) :
    (computeMismatchStats ms recoveries).total = ms.length ∧
    (computeMismatchStats ms recoveries).recovered =
      ms.countP (recoveredByJoin recoveries) ∧
    (computeMismatchStats ms recoveries).persistent =
      ms.countP (persistentByJoin recoveries) ∧
    (computeMismatchStats ms recoveries).pending =
      ms.countP (pendingByJoin recoveries) ∧
    (computeMismatchStats ms recoveries).recovered +
      (computeMismatchStats ms recoveries).persistent +
      (computeMismatchStats ms recoveries).pending =
      (computeMismatchStats ms recoveries).total := by
  have hf := joinStep_foldl recoveries ms 0 0 0
  have hsum := join_counts_sum recoveries ms
  refine ⟨rfl, ?_, ?_, ?_, ?_⟩ <;>
    · simp only [computeMismatchStats]
      rw [hf]
      simp
      try omega

/-- C3: with neither batch call failed and both result lists non-empty,
the batch is matched iff some ids were compared and the disagreeing
compared ids stay within the inclusive `ceil(compared × 0.1)` threshold;
in particular 10 compared ids with 1 disagreement are matched, with 2
disagreements are not, and a non-empty response pair with an empty
compared set is not matched. -/
theorem batch_matched_iff_within_threshold
    (dRs rRs : List BatchEntry) (hd : dRs ≠ []) (hr : rRs ≠ []) :
    (batchMatched false false dRs rRs = true ↔
      0 < comparedCount dRs rRs batchRequests.length ∧
      batchMismatchCount dRs rRs batchRequests.length ≤
        ceilTenPercent (comparedCount dRs rRs batchRequests.length)) ∧
    comparedCount exDirect10 exRefOneDiff batchRequests.length = 10 ∧
    batchMismatchCount exDirect10 exRefOneDiff batchRequests.length = 1 ∧
    batchMatched false false exDirect10 exRefOneDiff = true ∧
    batchMismatchCount exDirect10 exRefTwoDiff batchRequests.length = 2 ∧
    batchMatched false false exDirect10 exRefTwoDiff = false ∧
    comparedCount [exEntry 1 "a"] [exEntry 2 "a"] batchRequests.length = 0 ∧
    batchMatched false false [exEntry 1 "a"] [exEntry 2 "a"] = false := by
  have h1 : 0 < dRs.length := List.length_pos.mpr hd
  have h2 : 0 < rRs.length := List.length_pos.mpr hr
  refine ⟨?_, by decide, by decide, by decide, by decide, by decide,
    by decide, by decide⟩
  simp [batchMatched, h1, h2]

/-- Witness for C3 at a concrete input: one compared id, no disagreement. -/
theorem batch_matched_iff_within_threshold_witness :
    ((batchMatched false false [exEntry 1 "a"] [exEntry 1 "a"] = true ↔
      0 < comparedCount [exEntry 1 "a"] [exEntry 1 "a"] batchRequests.length ∧
      batchMismatchCount [exEntry 1 "a"] [exEntry 1 "a"] batchRequests.length ≤
        ceilTenPercent
          (comparedCount [exEntry 1 "a"] [exEntry 1 "a"] batchRequests.length)) ∧
    comparedCount exDirect10 exRefOneDiff batchRequests.length = 10 ∧
    batchMismatchCount exDirect10 exRefOneDiff batchRequests.length = 1 ∧
    batchMatched false false exDirect10 exRefOneDiff = true ∧
    batchMismatchCount exDirect10 exRefTwoDiff batchRequests.length = 2 ∧
    batchMatched false false exDirect10 exRefTwoDiff = false ∧
    comparedCount [exEntry 1 "a"] [exEntry 2 "a"] batchRequests.length = 0 ∧
    batchMatched false false [exEntry 1 "a"] [exEntry 2 "a"] = false) :=
  batch_matched_iff_within_threshold [exEntry 1 "a"] [exEntry 1 "a"]
    (by decide) (by decide)

end SyncStats
